import Mathlib

/-!
Shallow embedding of `src/simulation.rs` (DynaClim/simulation), a lifecycle
manager for scientific simulation runs.  Pure data flow and control flow of
`Simulation::new`, `Simulation::setup`, `Simulation::launch`, `log_start`,
`log_success`, `log_failure` and `log_error_chain` are translated directly;
the external collaborators (the `sci_file` filesystem utilities, the
`integrators` crate, the `log` sinks) are represented by an explicit
environment record and by an event trace listing every observable side
effect in program order.  Floating-point times are modelled as rationals:
configuration times originate from JSON numerals, which denote decimal
(hence rational) values.  Error values are modelled as `anyhow`-style cause
chains: a list of messages ordered from proximate cause to root cause.
-/

set_option autoImplicit false

namespace SimSpec

/-- JSON values, the wire format of configuration files.  Numbers are
modelled as rationals, matching the decimal numerals JSON can denote. -/
inductive Json where
  | null : Json
  | bool : Bool → Json
  | num : ℚ → Json
  | str : String → Json
  | arr : List Json → Json
  | obj : List (String × Json) → Json

/-- Field lookup in a JSON object, first binding wins (serde rejects
duplicate fields, so well-formed objects have at most one). -/
def getField : List (String × Json) → String → Option Json
  | [], _ => none
  | (k, v) :: rest, key => if k = key then some v else getField rest key

/-- Typed extraction of a boolean, as serde does for a `bool` field. -/
def asBool : Json → Except String Bool
  | .bool b => .ok b
  | _ => .error "invalid type: expected a boolean"

/-- Typed extraction of a number, as serde does for an `f64` field. -/
def asNum : Json → Except String ℚ
  | .num q => .ok q
  | _ => .error "invalid type: expected a number"

/-- Typed extraction of a string, as serde does for a string-like field. -/
def asStr : Json → Except String String
  | .str s => .ok s
  | _ => .error "invalid type: expected a string"

/-- The configuration record `InputConfig<U>` of `simulation.rs`.  The
integrator selector `IntegratorType` is an externally defined identifier,
modelled as a string; the caller-defined payload `U` (source field name
`universe`, a Lean keyword, hence `univ` here) is an opaque serializable
blob, modelled as an arbitrary JSON value. -/
structure InputConfig where
  resume : Bool
  initial_time : ℚ
  final_time : ℚ
  integrator : String
  univ : Json

/-- Serialization of `InputConfig`, one JSON object field per record field
in declaration order, as `#[derive(Serialize)]` produces. -/
def serializeConfig (c : InputConfig) : Json :=
  .obj [("resume", .bool c.resume),
        ("initial_time", .num c.initial_time),
        ("final_time", .num c.final_time),
        ("integrator", .str c.integrator),
        ("universe", c.univ)]

/-- Deserialization of `InputConfig`, as `#[derive(Deserialize)]` produces:
require a JSON object, extract each field with its expected type. -/
def deserializeConfig : Json → Except String InputConfig
  | .obj fields =>
    match getField fields "resume" with
    | none => .error "missing field resume"
    | some vr =>
      match asBool vr with
      | .error e => .error e
      | .ok r =>
        match getField fields "initial_time" with
        | none => .error "missing field initial_time"
        | some vi =>
          match asNum vi with
          | .error e => .error e
          | .ok it =>
            match getField fields "final_time" with
            | none => .error "missing field final_time"
            | some vf =>
              match asNum vf with
              | .error e => .error e
              | .ok ft =>
                match getField fields "integrator" with
                | none => .error "missing field integrator"
                | some vg =>
                  match asStr vg with
                  | .error e => .error e
                  | .ok integ =>
                    match getField fields "universe" with
                    | none => .error "missing field universe"
                    | some u => .ok ⟨r, it, ft, integ, u⟩
  | _ => .error "invalid type: expected configuration object"

/-- Split a character list on a separator character; the resulting pieces
never contain the separator and rejoining them with it restores the input. -/
def splitOnCharAux (sep : Char) : List Char → List Char → List (List Char)
  | [], acc => [acc.reverse]
  | c :: cs, acc =>
    if c = sep then acc.reverse :: splitOnCharAux sep cs []
    else splitOnCharAux sep cs (c :: acc)

/-- Split a character list on a separator character. -/
def splitOnChar (sep : Char) (s : List Char) : List (List Char) :=
  splitOnCharAux sep s []

/-- Rejoin pieces with a separator character (intercalation). -/
def joinChar (sep : Char) : List (List Char) → List Char
  | [] => []
  | [x] => x
  | x :: y :: xs => x ++ sep :: joinChar sep (y :: xs)

/-- Replace the extension of the final component of a path, as
`PathBuf::set_extension` does: the extension is the part of the file name
after the last dot, except that a name with no dot, or a hidden-file name
(leading dot, no other dot), has no extension and the new one is appended. -/
def set_extension (p ext : String) : String :=
  let comps := splitOnChar '/' p.data
  let name := comps.getLastD []
  let parts := splitOnChar '.' name
  let hiddenName : Bool := match name with | '.' :: _ => true | _ => false
  let newName :=
    if parts.length ≤ 1 then name ++ '.' :: ext.data
    else if hiddenName && parts.length == 2 then name ++ '.' :: ext.data
    else joinChar '.' parts.dropLast ++ '.' :: ext.data
  String.mk (joinChar '/' (comps.dropLast ++ [newName]))

/-- Decide whether one character list starts with another. -/
def startsWithList : List Char → List Char → Bool
  | [], _ => true
  | _ :: _, [] => false
  | a :: as, b :: bs => a = b && startsWithList as bs

/-- Decide whether `pat` occurs as a contiguous run inside `s`. -/
def containsList (pat : List Char) : List Char → Bool
  | [] => startsWithList pat []
  | c :: cs => startsWithList pat (c :: cs) || containsList pat cs

/-- Substring test on strings, via the underlying character lists. -/
def containsStr (s pat : String) : Bool :=
  containsList pat.data s.data

/-- Observable side effects of the lifecycle manager, in program order:
creation of a versioned run directory under a base path
(`create_incremented_directory`), persisting the reproducibility copy
(`serialize_json_to_path`), opening the result sink (`OutputFile::new`),
the integrator calls (`initialise`, `integrate`), the `log` records, and
direct stderr output (`eprintln!`). -/
inductive Event where
  | createRunDir : String → Event
  | writeConf : String → Json → Event
  | createOutFile : String → Event
  | initialiseCall : ℚ → ℚ → List ℚ → Event
  | integrateCall : Event
  | logInfo : String → Event
  | logWarn : String → Event
  | logError : String → Event
  | stderrMsg : String → Event

/-- The `System` bundle built by `System::new(outfile, config.universe)`:
the result sink paired with the opaque universe payload. -/
structure SystemBundle where
  outfile : String
  univ : Json

/-- The `Simulation<U, S>` entity of `simulation.rs`. -/
structure Simulation where
  name : String
  resume : Bool
  initial_time : ℚ
  final_time : ℚ
  integrator : String
  system : SystemBundle

/-- External collaborators of `Simulation::new` and `Simulation::setup`:
`sci_file::deserialize_json_from_path` (read), the `Path::file_stem` /
`Path::extension` accessors of the standard library (including their
`OsStr`-to-UTF-8 conversion, which can fail), the directory versioner
`create_incremented_directory`, and `collect_files_from_dir_path`
(listing).  Each is opaque to the lifecycle core and modelled as an
unconstrained function of the environment. -/
structure Env where
  read : String → Except (List String) Json
  fileStem : String → Option String
  ext : String → Option String
  incrDir : String → String
  listing : Except (List String) (List String)

/-- The load step of `Simulation::setup`:
`deserialize_json_from_path(input_path).context("unable to load config from file: …")`.
The `.context` call prepends its message to the cause chain of any error,
both for read/parse failures and for typed deserialization failures. -/
def loadConfig (env : Env) (input_path : String) :
    Except (List String) InputConfig :=
  match env.read input_path with
  | .error e => .error (("unable to load config from file: " ++ input_path) :: e)
  | .ok j =>
    match deserializeConfig j with
    | .error m => .error [("unable to load config from file: " ++ input_path), m]
    | .ok c => .ok c

/-- `Simulation::setup`: load and validate the configuration, derive the
name from the source file stem, create the versioned run directory, write
the reproducibility copy `<name>.conf` (re-serialized from the in-memory
record), open the `.jsonl` result sink, and assemble the entity.  Returns
the result together with the trace of side effects performed. -/
def setup (env : Env) (input_path output_path : String) :
    Except (List String) Simulation × List Event :=
  match loadConfig env input_path with
  | .error e => (.error e, [])
  | .ok config =>
    if config.initial_time < config.final_time then
      match env.fileStem input_path with
      | none => (.error ["unable to create output config"], [])
      | some name =>
        let dir := env.incrDir output_path
        let confPath := set_extension (dir ++ "/" ++ name) "conf"
        let jsonlPath := set_extension confPath "jsonl"
        (.ok { name := name
               resume := config.resume
               initial_time := config.initial_time
               final_time := config.final_time
               integrator := config.integrator
               system := { outfile := jsonlPath, univ := config.univ } },
         [.createRunDir output_path,
          .writeConf confPath (serializeConfig config),
          .createOutFile jsonlPath])
    else
      (.error ["Simulation final_time must be greater than initial_time."], [])

/-- The batch collection of `Simulation::new`:
`iter().map(Self::setup).collect::<Result<Vec<_>>>()` over a lazy
iterator — each source is fully set up before the next is examined, and
the first failure stops the traversal (sources after it are untouched). -/
def collectSetups (env : Env) (output_path : String) :
    List String → Except (List String) (List Simulation) × List Event
  | [] => (.ok [], [])
  | p :: ps =>
    match setup env p output_path with
    | (.error e, ev) => (.error e, ev)
    | (.ok s, ev) =>
      match collectSetups env output_path ps with
      | (.error e, evs) => (.error e, ev ++ evs)
      | (.ok ss, evs) => (.ok (s :: ss), ev ++ evs)

/-- The extension filter of the batch branch of `Simulation::new`:
`config.extension() == Some(OsStr::new("conf"))`. -/
def isConfSource (env : Env) (p : String) : Bool :=
  env.ext p == some "conf"

/-- The batch branch of `Simulation::new`: list the input directory,
keep entries whose extension is `conf`, set each up in listing order,
collecting fail-fast. -/
def new_batch (env : Env) (output_path : String) :
    Except (List String) (List Simulation) × List Event :=
  match env.listing with
  | .error e => (.error e, [])
  | .ok files => collectSetups env output_path (files.filter (isConfSource env))

/-- The single-file branch of `Simulation::new`: one setup, one-element
vector. -/
def new_single (env : Env) (input_path output_path : String) :
    Except (List String) (List Simulation) × List Event :=
  match setup env input_path output_path with
  | (.error e, ev) => (.error e, ev)
  | (.ok s, ev) => (.ok [s], ev)

/-- The error type of the `integrators` crate, as consumed by
`log_failure`: the interface contract distinguishes the
`StepLimitReached { x, n_step }` variant structurally from every other
variant; the other variants are opaque here and carry only their
`anyhow` cause chain (proximate cause first, root cause last). -/
inductive IntegratorError where
  | StepLimitReached : ℚ → ℕ → IntegratorError
  | other : List String → IntegratorError

/-- Integrator statistics (the `Stats` value returned on success), opaque
to the lifecycle core except for its `Display` rendering. -/
abbrev Stats : Type := String

/-- The integrator collaborator as seen by `launch`: the outcome of
`initialise(x, x_final, y)` and the outcome of `integrate(&mut system)`. -/
structure IntegratorBehaviour where
  initialiseResult : ℚ → ℚ → List ℚ → Except (List String) Unit
  integrateResult : Except IntegratorError Stats

/-- The message of the `log_start` info record. -/
def startMsg (name : String) (initial_time final_time : ℚ) : String :=
  "Starting simulation " ++ name ++ " at time period of " ++
    toString initial_time ++ " to " ++ toString final_time ++
    " (total " ++ toString (final_time - initial_time) ++ ")"

/-- `log_start`: one info record before the integrator is invoked. -/
def log_start (name : String) (initial_time final_time : ℚ) : List Event :=
  [.logInfo (startMsg name initial_time final_time)]

/-- The message of the `log_success` info record. -/
def successMsg (name : String) (final_time : ℚ) (stats : Stats) : String :=
  "Completed simulation " ++ name ++ " at time " ++ toString final_time ++
    ". Integrator stats: " ++ stats

/-- `log_success`: one info record on integrator success. -/
def log_success (name : String) (final_time : ℚ) (stats : Stats) : List Event :=
  [.logInfo (successMsg name final_time stats)]

/-- The warning message for a step-limit termination, carrying the time
reached and the step count. -/
def stepLimitWarning (name : String) (time : ℚ) (n_step : ℕ) : String :=
  "Terminating simulation " ++ name ++ " after " ++ toString time ++
    " years as maximum " ++ toString n_step ++ " steps reached."

/-- The fixed first part of the fatal message built by `log_failure` for
`log_error_chain`. -/
def abortMsg (name : String) : String :=
  "Aborting simulation " ++ name ++ " due to failure."

/-- `log_error_chain(e, s)`: append every cause of the chain to `s` as
`": <cause>"`, then emit the flattened message both to stderr (framed by
`eprintln!("Error: {}", …)`) and as one error-level log record. -/
def log_error_chain (e : List String) (s : String) : List Event :=
  let m := e.foldl (fun acc cause => acc ++ ": " ++ cause) s
  [.stderrMsg ("Error: " ++ m), .logError m]

/-- `log_failure`: downcast the error and classify — the
`StepLimitReached` variant becomes a warning with the time reached and
the step count; anything else goes to `log_error_chain` with the
name-carrying abort message. -/
def log_failure (name : String) (why : IntegratorError) : List Event :=
  match why with
  | .StepLimitReached time n_step => [.logWarn (stepLimitWarning name time n_step)]
  | .other chain => log_error_chain chain (abortMsg name)

/-- The events of the start-log / integrate / outcome-classification part
of `launch`, reached once initialisation (if any) has succeeded. -/
def runOutcome (ib : IntegratorBehaviour) (sim : Simulation) : List Event :=
  log_start sim.name sim.initial_time sim.final_time ++
    [Event.integrateCall] ++
    (match ib.integrateResult with
     | .ok stats => log_success sim.name sim.final_time stats
     | .error why => log_failure sim.name why)

/-- `Simulation::launch(x, x_final, y)`: initialise the integrator with
the given values unless resuming (propagating an initialisation error
with `?`), log the start event, run the integration, classify and log
the outcome, and return `Ok(())`. -/
def launch (ib : IntegratorBehaviour) (sim : Simulation)
    (x x_final : ℚ) (y : List ℚ) :
    Except (List String) Unit × List Event :=
  if sim.resume then
    (.ok (), runOutcome ib sim)
  else
    match ib.initialiseResult x x_final y with
    | .error e => (.error e, [.initialiseCall x x_final y])
    | .ok _ => (.ok (), .initialiseCall x x_final y :: runOutcome ib sim)

/-- A valid configuration: fresh run from time 0 to 10. -/
def goodConfig : InputConfig :=
  { resume := false, initial_time := 0, final_time := 10,
    integrator := "rk4", univ := .obj [] }

/-- An invalid configuration: `initial_time == final_time`. -/
def badConfig : InputConfig :=
  { resume := false, initial_time := 5, final_time := 5,
    integrator := "rk4", univ := .obj [] }

/-- A concrete environment: an input directory holding one valid config
source `dir/a.conf`, a non-config entry `dir/readme.md`, and a config
source `dir/b.conf` whose record violates the time-bound invariant. -/
def envBatch : Env :=
  { read := fun p =>
      if p = "dir/a.conf" then .ok (serializeConfig goodConfig)
      else if p = "dir/b.conf" then .ok (serializeConfig badConfig)
      else if p = "dir/c.conf" then .ok (Json.str "not an object")
      else .error ["no such file"]
    fileStem := fun p =>
      if p = "dir/a.conf" then some "a"
      else if p = "dir/b.conf" then some "b"
      else none
    ext := fun p =>
      if p = "dir/a.conf" || p = "dir/b.conf" then some "conf"
      else if p = "dir/readme.md" then some "md"
      else none
    incrDir := fun base => base ++ "/0001"
    listing := .ok ["dir/a.conf", "dir/readme.md", "dir/b.conf"] }

/-- A concrete resuming simulation entity. -/
def simResume : Simulation :=
  { name := "a", resume := true, initial_time := 0, final_time := 10,
    integrator := "rk4", system := { outfile := "out/0001/a.jsonl", univ := .obj [] } }

/-- A concrete fresh (non-resuming) simulation entity. -/
def simFresh : Simulation :=
  { simResume with resume := false }

/-- An integrator that initialises fine and stops at its step budget. -/
def ibStep : IntegratorBehaviour :=
  { initialiseResult := fun _ _ _ => .ok ()
    integrateResult := .error (.StepLimitReached 3 100000) }

/-- An integrator that initialises fine and fails fatally with a
two-element cause chain. -/
def ibFatal : IntegratorBehaviour :=
  { initialiseResult := fun _ _ _ => .ok ()
    integrateResult := .error (.other ["integration blew up", "matrix is singular"]) }

/-- An integrator whose initialisation fails. -/
def ibInitFail : IntegratorBehaviour :=
  { initialiseResult := fun _ _ _ => .error ["initialise failed"]
    integrateResult := .ok "7 steps" }

/-- The suffix the cause chain contributes to a flattened fatal message:
each cause in chain order, prefixed by a colon and a space. -/
def joinedCauses : List String → String
  | [] => ""
  | c :: cs => ": " ++ c ++ joinedCauses cs

/-- Round trip of the configuration record through its JSON form: the
derived serializer and deserializer are mutually inverse on records. -/
theorem deserialize_serialize (c : InputConfig) :
    deserializeConfig (serializeConfig c) = .ok c := rfl

/-- String concatenation is associative (via the underlying data lists). -/
theorem strAppend_assoc (a b c : String) : a ++ b ++ c = a ++ (b ++ c) := by
  apply String.ext
  simp [String.data_append, List.append_assoc]

/-- The fold of `log_error_chain` equals the seed followed by the joined
causes in chain order. -/
theorem foldl_joinedCauses (chain : List String) :
    ∀ s : String,
      chain.foldl (fun acc cause => acc ++ ": " ++ cause) s = s ++ joinedCauses chain := by
  induction chain with
  | nil => intro s; simp [joinedCauses]
  | cons c cs ih =>
    intro s
    simp only [List.foldl_cons, joinedCauses, ih]
    rw [strAppend_assoc, strAppend_assoc, strAppend_assoc]

/-- No event of the start/integrate/outcome phase is an `initialise`
call: initialisation happens, if at all, strictly before that phase. -/
theorem initialise_not_in_runOutcome (ib : IntegratorBehaviour) (sim : Simulation)
    (a b : ℚ) (c : List ℚ) : Event.initialiseCall a b c ∉ runOutcome ib sim := by
  unfold runOutcome log_start log_success log_failure log_error_chain
  cases ib.integrateResult with
  | ok stats => simp
  | error why => cases why <;> simp

/-- If some source of the traversed list fails setup, the fail-fast
collection of `Simulation::new` fails as a whole. -/
theorem collectSetups_error_of_mem (env : Env) (out : String) :
    ∀ (l : List String) (p : String), p ∈ l →
      (∃ e, (setup env p out).1 = .error e) →
      ∃ e2, (collectSetups env out l).1 = .error e2 := by
  intro l
  induction l with
  | nil => intro p hp; cases hp
  | cons q qs ih =>
    intro p hp hfail
    rcases List.mem_cons.mp hp with rfl | hmem
    · rcases hfail with ⟨e, he⟩
      cases hs : setup env p out with
      | mk r ev =>
        cases r with
        | error e2 => exact ⟨e2, by simp [collectSetups, hs]⟩
        | ok s => rw [hs] at he; exact absurd he (by simp)
    · cases hs : setup env q out with
      | mk r ev =>
        cases r with
        | error e2 => exact ⟨e2, by simp [collectSetups, hs]⟩
        | ok s =>
          rcases ih p hmem hfail with ⟨e2, he2⟩
          cases hrec : collectSetups env out qs with
          | mk rr evs =>
            rw [hrec] at he2
            cases rr with
            | error e3 => exact ⟨e3, by simp [collectSetups, hs, hrec]⟩
            | ok ss => exact absurd he2 (by simp)

/-- C1, as stated, fails on the code: over `envBatch` (one valid source
`dir/a.conf` followed by the invalid source `dir/b.conf`) the batch does
fail as a whole, yet a run directory was already created for the earlier
valid source — the first event of the batch trace is the run-directory
creation, so sources are not validated up front before output artifacts
are produced. -/
theorem new_batch_dir_created_before_failure :
    (new_batch envBatch "out").1 =
      .error ["Simulation final_time must be greater than initial_time."] ∧
    (new_batch envBatch "out").2.head? = some (Event.createRunDir "out") :=
  ⟨rfl, rfl⟩

/-- C1 (amended): in batch mode, if any conf-extension source of the
listing fails deserialization or validation, the entire batch fails —
`Simulation::new` returns an error and no collection of Simulations —
although sources are set up sequentially rather than validated up front,
so run directories created for valid sources processed earlier remain. -/
theorem new_batch_fail_fast (env : Env) (out : String) (files : List String) (p : String)
    (hlist : env.listing = .ok files)
    (hp : p ∈ files.filter (isConfSource env))
    (hfail : ∃ e, (setup env p out).1 = .error e) :
    ∃ e2, (new_batch env out).1 = .error e2 := by
  unfold new_batch
  rw [hlist]
  exact collectSetups_error_of_mem env out (files.filter (isConfSource env)) p hp hfail

theorem new_batch_fail_fast_witness :
    ∃ e2, (new_batch envBatch "out").1 = .error e2 :=
  new_batch_fail_fast envBatch "out" ["dir/a.conf", "dir/readme.md", "dir/b.conf"]
    "dir/b.conf" rfl (by decide) ⟨_, rfl⟩

/-- C2: the outcome classifier `log_failure` is a closed, two-way
classification: it emits exactly one warning — whose message carries the
time reached and the step count — precisely when the error structurally
matches `StepLimitReached`; every other error is routed to the
cause-chain logger `log_error_chain`. -/
theorem log_failure_closed_classification (name : String) (why : IntegratorError) :
    (∃ time n_step, why = .StepLimitReached time n_step ∧
        log_failure name why = [Event.logWarn (stepLimitWarning name time n_step)]) ∨
    ((∀ time n_step, why ≠ .StepLimitReached time n_step) ∧
      ∃ chain, why = .other chain ∧
        log_failure name why = log_error_chain chain (abortMsg name)) := by
  cases why with
  | StepLimitReached t n => exact Or.inl ⟨t, n, rfl, rfl⟩
  | other c => exact Or.inr ⟨fun t n h => IntegratorError.noConfusion h, c, rfl, rfl⟩

/-- C3: whenever the integration step returns an error of any kind and is
actually reached (resuming, or fresh with successful initialisation),
`launch` still returns `Ok(())`: the failure is handled by logging and
never surfaced to the caller. -/
theorem launch_ok_on_integrate_error (ib : IntegratorBehaviour) (sim : Simulation)
    (x x_final : ℚ) (y : List ℚ) (why : IntegratorError)
    (_hwhy : ib.integrateResult = .error why)
    (hreach : sim.resume = true ∨ ib.initialiseResult x x_final y = .ok ()) :
    (launch ib sim x x_final y).1 = .ok () := by
  unfold launch
  rcases hreach with h | h
  · rw [h]; simp
  · cases hr : sim.resume <;> simp [hr, h]

theorem launch_ok_on_integrate_error_witness :
    (launch ibStep simResume 0 10 []).1 = .ok () :=
  launch_ok_on_integrate_error ibStep simResume 0 10 []
    (.StepLimitReached 3 100000) rfl (Or.inl rfl)

/-- C4: `launch` calls the integrator's initialise operation with exactly
the given `(x, x_final, y)`, before anything else (hence before
integrating), precisely when `resume` is false; when `resume` is true no
initialise call ever appears and the trace is directly the
start/integrate/outcome phase. -/
theorem launch_initialise_iff_fresh (ib : IntegratorBehaviour) (sim : Simulation)
    (x x_final : ℚ) (y : List ℚ) :
    (sim.resume = false →
      (launch ib sim x x_final y).2.head? = some (Event.initialiseCall x x_final y)) ∧
    (sim.resume = true →
      (launch ib sim x x_final y).2 = runOutcome ib sim ∧
      ∀ a b c, Event.initialiseCall a b c ∉ (launch ib sim x x_final y).2) := by
  constructor
  · intro h
    unfold launch
    rw [h]
    cases hi : ib.initialiseResult x x_final y <;> simp
  · intro h
    have ht : (launch ib sim x x_final y).2 = runOutcome ib sim := by
      unfold launch; rw [h]; simp
    refine ⟨ht, fun a b c => ?_⟩
    rw [ht]
    exact initialise_not_in_runOutcome ib sim a b c

theorem launch_initialise_iff_fresh_witness :
    (launch ibStep simFresh 0 10 []).2.head? = some (Event.initialiseCall 0 10 []) ∧
    (launch ibStep simResume 0 10 []).2 = runOutcome ibStep simResume ∧
    Event.initialiseCall 0 10 [] ∉ (launch ibStep simResume 0 10 []).2 :=
  ⟨(launch_initialise_iff_fresh ibStep simFresh 0 10 []).1 rfl,
   ((launch_initialise_iff_fresh ibStep simResume 0 10 []).2 rfl).1,
   ((launch_initialise_iff_fresh ibStep simResume 0 10 []).2 rfl).2 0 10 []⟩

/-- C5: for every configuration record, the `initial_time < final_time`
check precedes any output artifact: a record violating it makes `setup`
fail with the validation message and an empty side-effect trace — no run
directory, no reproducibility copy, no result sink. -/
theorem setup_validates_before_artifacts (env : Env) (p out : String) (c : InputConfig)
    (hload : loadConfig env p = .ok c) (hbad : ¬ c.initial_time < c.final_time) :
    (setup env p out).1 =
      .error ["Simulation final_time must be greater than initial_time."] ∧
    (setup env p out).2 = [] := by
  unfold setup
  rw [hload]
  simp [hbad]

theorem setup_validates_before_artifacts_witness :
    (setup envBatch "dir/b.conf" "out").1 =
      .error ["Simulation final_time must be greater than initial_time."] ∧
    (setup envBatch "dir/b.conf" "out").2 = [] :=
  setup_validates_before_artifacts envBatch "dir/b.conf" "out" badConfig rfl (by decide)

/-- C6: for every non-step-limit integrator error, `log_failure` flattens
the whole cause chain into one message that starts with the
name-carrying abort text and appends every cause in chain order (from
proximate to root) as `": <cause>"`, and emits that one message both as
the error-level log record and, framed by `"Error: "`, on stderr. -/
theorem log_failure_fatal_chain_message (name : String) (chain : List String) :
    log_failure name (.other chain) =
      [Event.stderrMsg ("Error: " ++ (abortMsg name ++ joinedCauses chain)),
       Event.logError (abortMsg name ++ joinedCauses chain)] ∧
    abortMsg name = "Aborting simulation " ++ name ++ " due to failure." := by
  constructor
  · have hv : log_failure name (.other chain) =
        [Event.stderrMsg ("Error: " ++
           chain.foldl (fun acc cause => acc ++ ": " ++ cause) (abortMsg name)),
         Event.logError
           (chain.foldl (fun acc cause => acc ++ ": " ++ cause) (abortMsg name))] := rfl
    rw [hv, foldl_joinedCauses]
  · rfl

/-- C7: for every record that passes validation, `setup` persists the
re-serialization of the in-memory record (not the source bytes) as the
`.conf` reproducibility copy, and deserializing that persisted value
yields a record structurally equal to the original. -/
theorem setup_persists_reserialized_config (env : Env) (p out : String) (c : InputConfig)
    (hload : loadConfig env p = .ok c)
    (hvalid : c.initial_time < c.final_time)
    (name : String) (hstem : env.fileStem p = some name) :
    Event.writeConf (set_extension (env.incrDir out ++ "/" ++ name) "conf")
        (serializeConfig c) ∈ (setup env p out).2 ∧
    deserializeConfig (serializeConfig c) = .ok c := by
  refine ⟨?_, deserialize_serialize c⟩
  unfold setup
  rw [hload]
  simp [hvalid, hstem, List.mem_cons]

theorem setup_persists_reserialized_config_witness :
    Event.writeConf (set_extension (envBatch.incrDir "out" ++ "/" ++ "a") "conf")
        (serializeConfig goodConfig) ∈ (setup envBatch "dir/a.conf" "out").2 ∧
    deserializeConfig (serializeConfig goodConfig) = .ok goodConfig :=
  setup_persists_reserialized_config envBatch "dir/a.conf" "out" goodConfig rfl
    (by decide) "a" rfl

/-- C8, as stated, fails on the code: a validation failure
(`initial_time >= final_time`, here at source `dir/b.conf`) produces the
bare `ensure!` message, which does not mention the source file's path —
only deserialization failures get the path-annotating context. -/
theorem setup_validation_error_lacks_path :
    (setup envBatch "dir/b.conf" "out").1 =
      .error ["Simulation final_time must be greater than initial_time."] ∧
    containsStr "Simulation final_time must be greater than initial_time."
      "dir/b.conf" = false :=
  ⟨rfl, rfl⟩

/-- C8 (amended): any deserialization failure (read/parse or typed-decode)
produces an error whose proximate cause is the path-annotating context
message `unable to load config from file: <path>`, while a validation
failure produces the descriptive time-bound message without any path
annotation. -/
theorem setup_error_messages (env : Env) (p out : String) :
    (∀ e, env.read p = .error e →
      (setup env p out).1 =
        .error (("unable to load config from file: " ++ p) :: e)) ∧
    (∀ j m, env.read p = .ok j → deserializeConfig j = .error m →
      (setup env p out).1 =
        .error [("unable to load config from file: " ++ p), m]) ∧
    (∀ c, loadConfig env p = .ok c → ¬ c.initial_time < c.final_time →
      (setup env p out).1 =
        .error ["Simulation final_time must be greater than initial_time."]) := by
  refine ⟨?_, ?_, ?_⟩
  · intro e he
    have hl : loadConfig env p =
        .error (("unable to load config from file: " ++ p) :: e) := by
      unfold loadConfig; rw [he]
    unfold setup
    rw [hl]
  · intro j m hj hm
    have hl : loadConfig env p =
        .error [("unable to load config from file: " ++ p), m] := by
      unfold loadConfig; rw [hj]; simp only []; rw [hm]
    unfold setup
    rw [hl]
  · intro c hc hbad
    unfold setup
    rw [hc]
    simp [hbad]

theorem setup_error_messages_witness :
    (setup envBatch "dir/missing.conf" "out").1 =
      .error [("unable to load config from file: " ++ "dir/missing.conf"),
              "no such file"] ∧
    (setup envBatch "dir/c.conf" "out").1 =
      .error [("unable to load config from file: " ++ "dir/c.conf"),
              "invalid type: expected configuration object"] ∧
    (setup envBatch "dir/b.conf" "out").1 =
      .error ["Simulation final_time must be greater than initial_time."] :=
  ⟨(setup_error_messages envBatch "dir/missing.conf" "out").1 ["no such file"] rfl,
   (setup_error_messages envBatch "dir/c.conf" "out").2.1 (Json.str "not an object")
     "invalid type: expected configuration object" rfl rfl,
   (setup_error_messages envBatch "dir/b.conf" "out").2.2 badConfig rfl (by decide)⟩

/-- C9: the batch branch of `Simulation::new` treats exactly the
directory-listing entries whose extension is `conf` as configuration
sources, sets them up in the listing order (the filtered sources are a
sublist of the listing, hence order-preserving), and skips every entry
with any other extension. -/
theorem new_batch_conf_filter (env : Env) (out : String) (files : List String)
    (hlist : env.listing = .ok files) :
    new_batch env out = collectSetups env out (files.filter (isConfSource env)) ∧
    (∀ p, p ∈ files.filter (isConfSource env) ↔
      p ∈ files ∧ env.ext p = some "conf") ∧
    List.Sublist (files.filter (isConfSource env)) files := by
  refine ⟨by unfold new_batch; rw [hlist], ?_, List.filter_sublist files⟩
  intro p
  rw [List.mem_filter]
  unfold isConfSource
  simp [beq_iff_eq]

theorem new_batch_conf_filter_witness :
    new_batch envBatch "out" =
      collectSetups envBatch "out"
        (["dir/a.conf", "dir/readme.md", "dir/b.conf"].filter (isConfSource envBatch)) ∧
    ("dir/readme.md" ∈
        ["dir/a.conf", "dir/readme.md", "dir/b.conf"].filter (isConfSource envBatch) ↔
      "dir/readme.md" ∈ ["dir/a.conf", "dir/readme.md", "dir/b.conf"] ∧
        envBatch.ext "dir/readme.md" = some "conf") ∧
    List.Sublist
      (["dir/a.conf", "dir/readme.md", "dir/b.conf"].filter (isConfSource envBatch))
      ["dir/a.conf", "dir/readme.md", "dir/b.conf"] :=
  ⟨(new_batch_conf_filter envBatch "out" _ rfl).1,
   (new_batch_conf_filter envBatch "out" _ rfl).2.1 "dir/readme.md",
   (new_batch_conf_filter envBatch "out" _ rfl).2.2⟩

/-- C10: when `resume` is false and the integrator's initialise call
fails, `launch` propagates that error directly to its caller, with a
trace holding nothing but the initialise attempt: no start log record, no
outcome classification, no warning, no error log, no stderr output. -/
theorem launch_propagates_initialise_error (ib : IntegratorBehaviour) (sim : Simulation)
    (x x_final : ℚ) (y : List ℚ) (e : List String)
    (hres : sim.resume = false)
    (hinit : ib.initialiseResult x x_final y = .error e) :
    (launch ib sim x x_final y).1 = .error e ∧
    (launch ib sim x x_final y).2 = [Event.initialiseCall x x_final y] := by
  unfold launch
  rw [hres]
  simp [hinit]

theorem launch_propagates_initialise_error_witness :
    (launch ibInitFail simFresh 0 10 []).1 = .error ["initialise failed"] ∧
    (launch ibInitFail simFresh 0 10 []).2 = [Event.initialiseCall 0 10 []] :=
  launch_propagates_initialise_error ibInitFail simFresh 0 10 [] ["initialise failed"]
    rfl rfl

end SimSpec
